import Mathlib

/-!
Shallow embedding of the CRUD REST API in `src/app.js` (Express + MongoDB).

The two Mongo collections are modelled as lists of fixed-schema documents
(`ProductDoc`, `ItemDoc`) in natural (insertion) order; `findOne` is first
match, `insertOne` appends, `updateOne`/`deleteOne` act on the first match
(`_id` is unique in the real store, stated as a hypothesis where it matters).
Request bodies are JS values (`JsVal`; an absent field is `Option.none`,
mirroring `undefined`), query parameters are optional strings as Express
delivers them.  JS builtins used by the handlers (`Number`, `String`,
truthiness, `String.prototype.trim`, `ObjectId.isValid`) are modelled by
`jsNumber`, `jsString`, `jsTruthy`, `jsTrim` and `isValidObjectId`;
`Number` on strings implements the plain decimal subset of the JS grammar
(NaN is `Option.none`), and `new Date()` is a per-request timestamp `now`.
Each handler returns an `HResult`: HTTP status, optional JSON body, the
collection after the request, and whether the collection was accessed.
-/

/-- JSON values, used for response bodies. Numbers are rationals
(every JS float exercised here is rational). -/
inductive Json where
  | null : Json
  | bool (b : Bool) : Json
  | num (q : Rat) : Json
  | str (s : String) : Json
  | arr (elems : List Json) : Json
  | obj (fields : List (String × Json)) : Json
deriving Repr

/-- JavaScript values as they occur in parsed JSON request bodies.
An absent (`undefined`) field is represented as `Option.none` at the use
site, so `JsVal` itself has no `undefined`. -/
inductive JsVal where
  | null : JsVal
  | bool (b : Bool) : JsVal
  | num (q : Rat) : JsVal
  | str (s : String) : JsVal
deriving Repr, DecidableEq

/-- Drop surrounding whitespace from a character list. -/
def trimChars (cs : List Char) : List Char :=
  ((cs.dropWhile Char.isWhitespace).reverse.dropWhile Char.isWhitespace).reverse

/-- JS `String.prototype.trim`: drop surrounding whitespace. -/
def jsTrim (s : String) : String :=
  String.mk (trimChars s.toList)

/-- JS `String.prototype.split` with a one-character separator: the
groups between separator occurrences (an empty string yields `[""]`). -/
def splitOnChar (sep : Char) : List Char → List (List Char)
  | [] => [[]]
  | c :: cs =>
    match splitOnChar sep cs with
    | [] => [[]]
    | g :: gs => if c = sep then [] :: g :: gs else (c :: g) :: gs

/-- JS truthiness: `""`, `0`, `false`, `null` are falsy. -/
def jsTruthy : JsVal → Bool
  | .null => false
  | .bool b => b
  | .num q => decide (q ≠ 0)
  | .str s => decide (s ≠ "")

/-- Value of a list of decimal digit characters. -/
def digitsVal (cs : List Char) : Nat :=
  cs.foldl (fun a c => a * 10 + (c.toNat - 48)) 0

/-- Parse an unsigned decimal numeral (`digits`, `digits.digits`,
`digits.`, `.digits`); anything else is NaN (`none`).  Models the plain
decimal part of the JS `Number` string grammar. -/
def parseUnsigned (cs : List Char) : Option Rat :=
  let ip := cs.takeWhile (fun c => c ≠ '.')
  let rest := cs.dropWhile (fun c => c ≠ '.')
  if ip.all Char.isDigit then
    match rest with
    | [] => if ip.isEmpty then none else some (digitsVal ip : Rat)
    | _ :: frac =>
      if frac.all Char.isDigit && !(ip.isEmpty && frac.isEmpty) then
        some ((digitsVal ip : Rat) + (digitsVal frac : Rat) / ((10 : Rat) ^ frac.length))
      else none
  else none

/-- JS `Number(string)`: whitespace-trimmed; empty is `0`; optional sign
followed by a decimal numeral; everything else (for example `"abc"`) is
NaN, modelled as `none`. -/
def jsStrToNum (s : String) : Option Rat :=
  let t := jsTrim s
  if t = "" then some 0
  else
    match t.toList with
    | '+' :: cs => parseUnsigned cs
    | '-' :: cs => (parseUnsigned cs).map (fun q => -q)
    | cs => parseUnsigned cs

/-- JS `Number(v)` for body values: `null` is `0`, booleans are `0`/`1`,
numbers are themselves, strings parse via `jsStrToNum`; NaN is `none`. -/
def jsNumber : JsVal → Option Rat
  | .null => some 0
  | .bool b => some (if b then 1 else 0)
  | .num q => some q
  | .str s => jsStrToNum s

/-- JS `String(v)` for body values.  Non-integer rationals use Lean's
rendering (never exercised by the routes' text fields on string input). -/
def jsString : JsVal → String
  | .null => "null"
  | .bool b => if b then "true" else "false"
  | .num q => if q.den = 1 then toString q.num else toString q
  | .str s => s

/-- Truthiness of a possibly-absent (query) string: `undefined` and `""`
are falsy. -/
def strTruthy : Option String → Bool
  | none => false
  | some s => decide (s ≠ "")

/-- Mongo document keys are their 24-character hex string form. -/
abbrev OID := String

/-- `ObjectId.isValid` on a string: 24 hexadecimal characters. -/
def isValidObjectId (s : String) : Bool :=
  s.length = 24 &&
    s.toList.all (fun c =>
      c.isDigit || ('a' ≤ c && c ≤ 'f') || ('A' ≤ c && c ≤ 'F'))

/-- A document of the `products` collection: the fields written by
`POST /api/products` (timestamps are abstract ticks). -/
structure ProductDoc where
  _id : OID
  name : String
  price : Rat
  category : String
  createdAt : Nat
deriving Repr, DecidableEq

/-- A document of the `items` collection: the fields written by
`POST /api/items`. -/
structure ItemDoc where
  _id : OID
  name : String
  description : String
  createdAt : Nat
  updatedAt : Nat
deriving Repr, DecidableEq

/-- The field/value pairs of a product document in document order,
as Mongo serialises them. -/
def ProductDoc.fieldPairs (d : ProductDoc) : List (String × Json) :=
  [("_id", Json.str d._id), ("name", Json.str d.name),
   ("price", Json.num d.price), ("category", Json.str d.category),
   ("createdAt", Json.num (d.createdAt : Rat))]

/-- Full JSON form of a product document. -/
def ProductDoc.toJson (d : ProductDoc) : Json :=
  Json.obj d.fieldPairs

/-- Full JSON form of an item document. -/
def ItemDoc.toJson (d : ItemDoc) : Json :=
  Json.obj
    [("_id", Json.str d._id), ("name", Json.str d.name),
     ("description", Json.str d.description),
     ("createdAt", Json.num (d.createdAt : Rat)),
     ("updatedAt", Json.num (d.updatedAt : Rat))]

/-- Parsed body of a products request: `{name, price, category}`,
each possibly absent. -/
structure ProductBody where
  name : Option JsVal
  price : Option JsVal
  category : Option JsVal
deriving Repr

/-- Parsed body of an items request: `{name, description}`. -/
structure ItemBody where
  name : Option JsVal
  description : Option JsVal
deriving Repr

/-- Query string of `GET /api/products` as Express delivers it. -/
structure ProductsQuery where
  category : Option String
  minPrice : Option String
  sort : Option String
  fields : Option String
deriving Repr

/-- Result of one request: HTTP status, optional JSON body (`none` for the
body-less 204), the collection afterwards, and whether the handler touched
the collection. -/
structure HResult (σ : Type) where
  status : Nat
  body : Option Json
  store : σ
  accessed : Bool
deriving Repr

/-- The `{error: msg}` bodies the handlers send on 4xx. -/
def errJson (msg : String) : Json :=
  Json.obj [("error", Json.str msg)]

/-- Replace the first element satisfying `p` (Mongo `updateOne`). -/
def updateFirst (p : α → Bool) (f : α → α) : List α → List α
  | [] => []
  | x :: xs => if p x then f x :: xs else x :: updateFirst p f xs

/-- Remove the first element satisfying `p` (Mongo `deleteOne`). -/
def removeFirst (p : α → Bool) : List α → List α
  | [] => []
  | x :: xs => if p x then xs else x :: removeFirst p xs

/-- The field list of a `fields` query parameter:
`split(",").map(trim).filter(Boolean)`. -/
def fieldListOf (fields : String) : List String :=
  (((splitOnChar ',' fields.toList).map
      (fun cs => String.mk (trimChars cs))).filter (fun f => f ≠ ""))

/-- Mongo `find(filter)` for the products list route: optional exact
`category` match and optional inclusive `price` lower bound, in natural
order. -/
def applyFilter (store : List ProductDoc) (cat : Option String)
    (minP : Option Rat) : List ProductDoc :=
  store.filter (fun d =>
    (match cat with | some c => decide (d.category = c) | none => true) &&
    (match minP with | some m => decide (m ≤ d.price) | none => true))

/-- Mongo projection `{_id: 0, f: 1, ...}` over a fixed-schema product
document: keep exactly the listed fields, in document order (`_id` only
when listed, since the handler then overwrites `_id: 0` with `_id: 1`). -/
def projectDoc (fl : List String) (d : ProductDoc) : Json :=
  Json.obj (d.fieldPairs.filter (fun kv => fl.contains kv.1))

/-- The order `sort({price: 1})` sorts by: non-decreasing price. -/
def priceLE (a b : ProductDoc) : Prop :=
  a.price ≤ b.price

instance : DecidableRel priceLE :=
  fun a b => inferInstanceAs (Decidable (a.price ≤ b.price))

instance : IsTotal ProductDoc priceLE :=
  ⟨fun a b => le_total a.price b.price⟩

instance : IsTrans ProductDoc priceLE :=
  ⟨fun _ _ _ h h2 => le_trans h h2⟩

/-- Mongo `sort({price: 1})`: ascending by price. -/
def sortByPrice (l : List ProductDoc) : List ProductDoc :=
  l.insertionSort priceLE

/-- The 200 response of `GET /api/products`:
`{count: docs.length, products: docs}`. -/
def productsOkResp (store : List ProductDoc) (docs : List Json) :
    HResult (List ProductDoc) :=
  ⟨200, some (Json.obj [("count", Json.num (docs.length : Rat)),
                        ("products", Json.arr docs)]), store, true⟩

/-- Steps 2-4 of `GET /api/products` (projection, sort, query), after the
`minPrice` parameter has been validated. -/
def getProductsWithFilter (store : List ProductDoc) (q : ProductsQuery)
    (cat : Option String) (minP : Option Rat) : HResult (List ProductDoc) :=
  let run (proj : Option (List String)) : HResult (List ProductDoc) :=
    let found := applyFilter store cat minP
    let sorted := if q.sort = some "price" then sortByPrice found else found
    let docs : List Json :=
      match proj with
      | some fl => sorted.map (projectDoc fl)
      | none => sorted.map ProductDoc.toJson
    productsOkResp store docs
  if strTruthy q.fields then
    let fl := fieldListOf (q.fields.getD "")
    if fl.isEmpty then
      ⟨400, some (errJson "fields must contain at least one field name"),
       store, false⟩
    else run (some fl)
  else run none

/-- `GET /api/products`: filter + sort + projection. -/
def getProducts (store : List ProductDoc) (q : ProductsQuery) :
    HResult (List ProductDoc) :=
  let cat : Option String := if strTruthy q.category then q.category else none
  match q.minPrice with
  | some mp =>
    match jsStrToNum mp with
    | none => ⟨400, some (errJson "minPrice must be a number"), store, false⟩
    | some m => getProductsWithFilter store q cat (some m)
  | none => getProductsWithFilter store q cat none

/-- `GET /api/products/:id`. -/
def getProductById (store : List ProductDoc) (i : String) :
    HResult (List ProductDoc) :=
  if !isValidObjectId i then
    ⟨400, some (errJson "Invalid product ID"), store, false⟩
  else
    match store.find? (fun d => d._id = i) with
    | none => ⟨404, some (errJson "Product not found"), store, true⟩
    | some d => ⟨200, some d.toJson, store, true⟩

/-- `POST /api/products`: requires truthy `name`/`category` and a defined
`price`; `price` coerced via `Number`; inserts the trimmed document.
`newId` is the store-generated key and `now` the request timestamp. -/
def postProducts (store : List ProductDoc) (body : ProductBody)
    (newId : OID) (now : Nat) : HResult (List ProductDoc) :=
  match body.name, body.price, body.category with
  | some nv, some pv, some cv =>
    if !jsTruthy nv || !jsTruthy cv then
      ⟨400, some (errJson "Missing fields: name, price, category"),
       store, false⟩
    else
      match jsNumber pv with
      | none => ⟨400, some (errJson "price must be a number"), store, false⟩
      | some priceNumber =>
        let doc : ProductDoc :=
          ⟨newId, jsTrim (jsString nv), priceNumber, jsTrim (jsString cv), now⟩
        ⟨201, some (Json.obj [("message", Json.str "Product created"),
                              ("id", Json.str newId)]),
         store ++ [doc], true⟩
  | _, _, _ =>
    ⟨400, some (errJson "Missing fields: name, price, category"),
     store, false⟩

/-- The `updateOne` step of `PUT /api/products/:id`, after validation:
`$set` of whichever fields were supplied. -/
def putProductApply (store : List ProductDoc) (i : String)
    (nameUpd catUpd : Option String) (priceUpd : Option Rat) :
    HResult (List ProductDoc) :=
  if nameUpd.isNone && catUpd.isNone && priceUpd.isNone then
    ⟨400, some (errJson "Nothing to update"), store, false⟩
  else if store.any (fun d => d._id = i) then
    ⟨200, some (Json.obj [("message", Json.str "Product updated")]),
     updateFirst (fun d => d._id = i)
       (fun d => { d with name := nameUpd.getD d.name,
                          category := catUpd.getD d.category,
                          price := priceUpd.getD d.price }) store, true⟩
  else ⟨404, some (errJson "Product not found"), store, true⟩

/-- `PUT /api/products/:id` (partial-style update). -/
def putProduct (store : List ProductDoc) (i : String) (body : ProductBody) :
    HResult (List ProductDoc) :=
  if !isValidObjectId i then
    ⟨400, some (errJson "Invalid product ID"), store, false⟩
  else
    let nameUpd := body.name.map (fun v => jsTrim (jsString v))
    let catUpd := body.category.map (fun v => jsTrim (jsString v))
    match body.price with
    | some pv =>
      match jsNumber pv with
      | none => ⟨400, some (errJson "price must be a number"), store, false⟩
      | some pn => putProductApply store i nameUpd catUpd (some pn)
    | none => putProductApply store i nameUpd catUpd none

/-- `DELETE /api/products/:id`. -/
def deleteProduct (store : List ProductDoc) (i : String) :
    HResult (List ProductDoc) :=
  if !isValidObjectId i then
    ⟨400, some (errJson "Invalid product ID"), store, false⟩
  else if store.any (fun d => d._id = i) then
    ⟨200, some (Json.obj [("message", Json.str "Product deleted")]),
     removeFirst (fun d => d._id = i) store, true⟩
  else ⟨404, some (errJson "Product not found"), store, true⟩

/-- `GET /api/items`: all items, `{count, items}`. -/
def getItems (store : List ItemDoc) : HResult (List ItemDoc) :=
  let items := store.map ItemDoc.toJson
  ⟨200, some (Json.obj [("count", Json.num (items.length : Rat)),
                        ("items", Json.arr items)]), store, true⟩

/-- `GET /api/items/:id`. -/
def getItemById (store : List ItemDoc) (i : String) : HResult (List ItemDoc) :=
  if !isValidObjectId i then
    ⟨400, some (errJson "Invalid item ID"), store, false⟩
  else
    match store.find? (fun d => d._id = i) with
    | none => ⟨404, some (errJson "Item not found"), store, true⟩
    | some d => ⟨200, some d.toJson, store, true⟩

/-- `POST /api/items`: truthy `name`/`description` required, then the
trimmed values must be non-empty; inserts with equal timestamps. -/
def postItems (store : List ItemDoc) (body : ItemBody) (newId : OID)
    (now : Nat) : HResult (List ItemDoc) :=
  match body.name, body.description with
  | some nv, some dv =>
    if !jsTruthy nv || !jsTruthy dv then
      ⟨400, some (errJson "Missing required fields: name, description"),
       store, false⟩
    else
      let n := jsTrim (jsString nv)
      let d := jsTrim (jsString dv)
      if n = "" || d = "" then
        ⟨400, some (errJson "name and description cannot be empty"),
         store, false⟩
      else
        ⟨201, some (Json.obj [("message", Json.str "Item created"),
                              ("id", Json.str newId)]),
         store ++ [⟨newId, n, d, now, now⟩], true⟩
  | _, _ =>
    ⟨400, some (errJson "Missing required fields: name, description"),
     store, false⟩

/-- `PUT /api/items/:id` (full update): both fields required truthy and
non-empty after trim; `$set` of name, description and `updatedAt`. -/
def putItem (store : List ItemDoc) (i : String) (body : ItemBody)
    (now : Nat) : HResult (List ItemDoc) :=
  if !isValidObjectId i then
    ⟨400, some (errJson "Invalid item ID"), store, false⟩
  else
    match body.name, body.description with
    | some nv, some dv =>
      if !jsTruthy nv || !jsTruthy dv then
        ⟨400, some (errJson
          "PUT requires full update: name and description are required"),
         store, false⟩
      else
        let n := jsTrim (jsString nv)
        let d := jsTrim (jsString dv)
        if n = "" || d = "" then
          ⟨400, some (errJson "name and description cannot be empty"),
           store, false⟩
        else if store.any (fun x => x._id = i) then
          ⟨200, some (Json.obj [("message", Json.str "Item updated (PUT)")]),
           updateFirst (fun x => x._id = i)
             (fun x => { x with name := n, description := d,
                                updatedAt := now }) store, true⟩
        else ⟨404, some (errJson "Item not found"), store, true⟩
    | _, _ =>
      ⟨400, some (errJson
        "PUT requires full update: name and description are required"),
       store, false⟩

/-- The `updateOne` step of `PATCH /api/items/:id`: 400 when only
`updatedAt` is in the update set, else `$set` of the supplied fields plus
`updatedAt`. -/
def patchItemApply (store : List ItemDoc) (i : String)
    (nUpd dUpd : Option String) (now : Nat) : HResult (List ItemDoc) :=
  if nUpd.isNone && dUpd.isNone then
    ⟨400, some (errJson "PATCH requires at least one field: name or description"),
     store, false⟩
  else if store.any (fun x => x._id = i) then
    ⟨200, some (Json.obj [("message", Json.str "Item updated (PATCH)")]),
     updateFirst (fun x => x._id = i)
       (fun x => { x with name := nUpd.getD x.name,
                          description := dUpd.getD x.description,
                          updatedAt := now }) store, true⟩
  else ⟨404, some (errJson "Item not found"), store, true⟩

/-- The description step of `PATCH /api/items/:id`: a supplied description
must be non-empty after trim. -/
def patchItemDesc (store : List ItemDoc) (i : String) (nUpd : Option String)
    (body : ItemBody) (now : Nat) : HResult (List ItemDoc) :=
  match body.description with
  | some dv =>
    let d := jsTrim (jsString dv)
    if d = "" then
      ⟨400, some (errJson "description cannot be empty"), store, false⟩
    else patchItemApply store i nUpd (some d) now
  | none => patchItemApply store i nUpd none now

/-- `PATCH /api/items/:id` (partial update): id validation, then the name
step (a supplied name must be non-empty after trim), then description. -/
def patchItem (store : List ItemDoc) (i : String) (body : ItemBody)
    (now : Nat) : HResult (List ItemDoc) :=
  if !isValidObjectId i then
    ⟨400, some (errJson "Invalid item ID"), store, false⟩
  else
    match body.name with
    | some nv =>
      let n := jsTrim (jsString nv)
      if n = "" then
        ⟨400, some (errJson "name cannot be empty"), store, false⟩
      else patchItemDesc store i (some n) body now
    | none => patchItemDesc store i none body now

/-- `DELETE /api/items/:id`: 204 with empty body on success. -/
def deleteItem (store : List ItemDoc) (i : String) : HResult (List ItemDoc) :=
  if !isValidObjectId i then
    ⟨400, some (errJson "Invalid item ID"), store, false⟩
  else if store.any (fun x => x._id = i) then
    ⟨204, none, removeFirst (fun x => x._id = i) store, true⟩
  else ⟨404, some (errJson "Item not found"), store, true⟩

/-- Look up a top-level key of a JSON object body. -/
def jsonField (b : Option Json) (k : String) : Option Json :=
  match b with
  | some (Json.obj kvs) => kvs.lookup k
  | _ => none

/-- The `products` array of a list response, when present. -/
def productsOf (r : HResult (List ProductDoc)) : Option (List Json) :=
  match jsonField r.body "products" with
  | some (Json.arr l) => some l
  | _ => none

/-- The `items` array of a list response, when present. -/
def itemsOf (r : HResult (List ItemDoc)) : Option (List Json) :=
  match jsonField r.body "items" with
  | some (Json.arr l) => some l
  | _ => none

/-- The `count` field of a list response, when present and numeric. -/
def countOf (b : Option Json) : Option Rat :=
  match jsonField b "count" with
  | some (Json.num n) => some n
  | _ => none

/-- The `id` field of a creation response, when present. -/
def idOf (b : Option Json) : Option String :=
  match jsonField b "id" with
  | some (Json.str s) => some s
  | _ => none

/-- Top-level keys of a JSON object, in order. -/
def objKeys : Json → List String
  | Json.obj kvs => kvs.map Prod.fst
  | _ => []

/-- A sample valid 24-character hex ObjectId string, for witnesses. -/
def sampleId : OID := "507f1f77bcf86cd799439011"

/-- A second sample ObjectId string. -/
def sampleId2 : OID := "507f1f77bcf86cd799439012"

/-- A sample product document, for witnesses. -/
def sampleProduct : ProductDoc :=
  ⟨sampleId, "Widget", 5, "Tools", 0⟩

/-- A sample item document, for witnesses. -/
def sampleItem : ItemDoc :=
  ⟨sampleId, "Pen", "Blue pen", 0, 0⟩

/-- C1: for every identifier string that is not a validly-formatted
ObjectId, each of the seven `:id` routes (GET/PUT/DELETE
`/api/products/:id`, GET/PUT/PATCH/DELETE `/api/items/:id`) returns
HTTP 400, leaves its collection unchanged and performs no store access. -/
theorem invalid_id_always_400_without_store_access
    (i : String) (h : isValidObjectId i = false)
    (pstore : List ProductDoc) (istore : List ItemDoc)
    (pbody : ProductBody) (ibody : ItemBody) (now : Nat) :
    getProductById pstore i
      = ⟨400, some (errJson "Invalid product ID"), pstore, false⟩ ∧
    putProduct pstore i pbody
      = ⟨400, some (errJson "Invalid product ID"), pstore, false⟩ ∧
    deleteProduct pstore i
      = ⟨400, some (errJson "Invalid product ID"), pstore, false⟩ ∧
    getItemById istore i
      = ⟨400, some (errJson "Invalid item ID"), istore, false⟩ ∧
    putItem istore i ibody now
      = ⟨400, some (errJson "Invalid item ID"), istore, false⟩ ∧
    patchItem istore i ibody now
      = ⟨400, some (errJson "Invalid item ID"), istore, false⟩ ∧
    deleteItem istore i
      = ⟨400, some (errJson "Invalid item ID"), istore, false⟩ := by
  simp [getProductById, putProduct, deleteProduct, getItemById, putItem,
        patchItem, deleteItem, h]

/-- Witness for C1 at the concrete malformed identifier `"zzz"`. -/
theorem invalid_id_always_400_witness :
    getProductById [] "zzz"
      = ⟨400, some (errJson "Invalid product ID"), [], false⟩ ∧
    putProduct [] "zzz" ⟨none, none, none⟩
      = ⟨400, some (errJson "Invalid product ID"), [], false⟩ ∧
    deleteProduct [] "zzz"
      = ⟨400, some (errJson "Invalid product ID"), [], false⟩ ∧
    getItemById [] "zzz"
      = ⟨400, some (errJson "Invalid item ID"), [], false⟩ ∧
    putItem [] "zzz" ⟨none, none⟩ 0
      = ⟨400, some (errJson "Invalid item ID"), [], false⟩ ∧
    patchItem [] "zzz" ⟨none, none⟩ 0
      = ⟨400, some (errJson "Invalid item ID"), [], false⟩ ∧
    deleteItem [] "zzz"
      = ⟨400, some (errJson "Invalid item ID"), [], false⟩ :=
  invalid_id_always_400_without_store_access "zzz" (by decide)
    [] [] ⟨none, none, none⟩ ⟨none, none⟩ 0

/-- C6: a `PATCH /api/items/:id` request on an existing item whose body
has `name` equal to the empty string returns 400, leaves the collection
(and hence the stored document and its update timestamp) unchanged, and
performs no store write. -/
theorem patch_item_empty_name_rejected
    (store : List ItemDoc) (d : ItemDoc) (hd : d ∈ store)
    (descv : Option JsVal) (now : Nat) :
    (patchItem store d._id ⟨some (JsVal.str ""), descv⟩ now).status = 400 ∧
    (patchItem store d._id ⟨some (JsVal.str ""), descv⟩ now).store = store ∧
    (patchItem store d._id ⟨some (JsVal.str ""), descv⟩ now).accessed = false := by
  have h0 : jsTrim "" = "" := by decide
  by_cases hv : isValidObjectId d._id
  · simp [patchItem, hv, jsString, h0]
  · simp [patchItem, hv]

/-- Witness for C6: one stored item, body `{name: ""}`. -/
theorem patch_item_empty_name_rejected_witness :
    (patchItem [sampleItem] sampleItem._id
        ⟨some (JsVal.str ""), none⟩ 7).status = 400 ∧
    (patchItem [sampleItem] sampleItem._id
        ⟨some (JsVal.str ""), none⟩ 7).store = [sampleItem] ∧
    (patchItem [sampleItem] sampleItem._id
        ⟨some (JsVal.str ""), none⟩ 7).accessed = false :=
  patch_item_empty_name_rejected [sampleItem] sampleItem (by simp) none 7

/-- C5: a `POST /api/products` request whose body supplies a `price`
value whose `Number` coercion is NaN returns 400 and leaves the products
collection unchanged (no document is inserted). -/
theorem post_product_nan_price_rejected
    (store : List ProductDoc) (body : ProductBody) (pv : JsVal)
    (newId : OID) (now : Nat)
    (hp : body.price = some pv) (hnan : jsNumber pv = none) :
    (postProducts store body newId now).status = 400 ∧
    (postProducts store body newId now).store = store ∧
    (postProducts store body newId now).accessed = false := by
  rcases body with ⟨bn, bp, bc⟩
  simp only [ProductBody.price] at hp
  subst hp
  cases bn with
  | none => simp [postProducts]
  | some nv =>
    cases bc with
    | none => simp [postProducts]
    | some cv =>
      simp only [postProducts]
      split
      · simp
      · simp [hnan]

/-- Witness for C5 at the body `{name: "Pen", price: "abc", category: "x"}`. -/
theorem post_product_nan_price_rejected_witness :
    (postProducts [] ⟨some (JsVal.str "Pen"), some (JsVal.str "abc"),
        some (JsVal.str "x")⟩ sampleId 0).status = 400 ∧
    (postProducts [] ⟨some (JsVal.str "Pen"), some (JsVal.str "abc"),
        some (JsVal.str "x")⟩ sampleId 0).store = [] ∧
    (postProducts [] ⟨some (JsVal.str "Pen"), some (JsVal.str "abc"),
        some (JsVal.str "x")⟩ sampleId 0).accessed = false :=
  post_product_nan_price_rejected [] _ (JsVal.str "abc") sampleId 0
    rfl (by decide)

/-- C9: `POST /api/products` with `price: null` (present, not undefined)
and non-empty name/category returns 201 and persists price `0`; likewise
`price: true` is accepted and stored as `1`; generally any supplied price
whose `Number` coercion is not NaN is accepted and stored as that number. -/
theorem post_product_null_price_accepted
    (store : List ProductDoc) (n c : String) (newId : OID) (now : Nat)
    (hn : n ≠ "") (hc : c ≠ "") :
    ((postProducts store ⟨some (JsVal.str n), some JsVal.null,
        some (JsVal.str c)⟩ newId now).status = 201 ∧
     (postProducts store ⟨some (JsVal.str n), some JsVal.null,
        some (JsVal.str c)⟩ newId now).store
       = store ++ [⟨newId, jsTrim n, 0, jsTrim c, now⟩]) ∧
    ((postProducts store ⟨some (JsVal.str n), some (JsVal.bool true),
        some (JsVal.str c)⟩ newId now).status = 201 ∧
     (postProducts store ⟨some (JsVal.str n), some (JsVal.bool true),
        some (JsVal.str c)⟩ newId now).store
       = store ++ [⟨newId, jsTrim n, 1, jsTrim c, now⟩]) ∧
    (∀ pv p, jsNumber pv = some p →
      (postProducts store ⟨some (JsVal.str n), some pv,
         some (JsVal.str c)⟩ newId now).status = 201 ∧
      (postProducts store ⟨some (JsVal.str n), some pv,
         some (JsVal.str c)⟩ newId now).store
        = store ++ [⟨newId, jsTrim n, p, jsTrim c, now⟩]) := by
  refine ⟨?_, ?_, ?_⟩
  · simp [postProducts, jsTruthy, jsNumber, jsString, hn, hc]
  · simp [postProducts, jsTruthy, jsNumber, jsString, hn, hc]
  · intro pv p hp
    simp [postProducts, jsTruthy, jsString, hn, hc, hp]

/-- Witness for C9 at `{name: "Pen", price: null, category: "Ink"}`. -/
theorem post_product_null_price_accepted_witness :
    ((postProducts [] ⟨some (JsVal.str "Pen"), some JsVal.null,
        some (JsVal.str "Ink")⟩ sampleId 0).status = 201 ∧
     (postProducts [] ⟨some (JsVal.str "Pen"), some JsVal.null,
        some (JsVal.str "Ink")⟩ sampleId 0).store
       = [] ++ [⟨sampleId, jsTrim "Pen", 0, jsTrim "Ink", 0⟩]) ∧
    ((postProducts [] ⟨some (JsVal.str "Pen"), some (JsVal.bool true),
        some (JsVal.str "Ink")⟩ sampleId 0).status = 201 ∧
     (postProducts [] ⟨some (JsVal.str "Pen"), some (JsVal.bool true),
        some (JsVal.str "Ink")⟩ sampleId 0).store
       = [] ++ [⟨sampleId, jsTrim "Pen", 1, jsTrim "Ink", 0⟩]) ∧
    (∀ pv p, jsNumber pv = some p →
      (postProducts [] ⟨some (JsVal.str "Pen"), some pv,
         some (JsVal.str "Ink")⟩ sampleId 0).status = 201 ∧
      (postProducts [] ⟨some (JsVal.str "Pen"), some pv,
         some (JsVal.str "Ink")⟩ sampleId 0).store
        = [] ++ [⟨sampleId, jsTrim "Pen", p, jsTrim "Ink", 0⟩]) :=
  post_product_null_price_accepted [] "Pen" "Ink" sampleId 0
    (by decide) (by decide)

/-- Counterexample for C2: `POST /api/products` with `name: " "` — a
supplied text value that is empty after trimming — returns 201 and
persists the document with an empty name instead of rejecting with 400. -/
theorem product_empty_after_trim_persisted_cex :
    (postProducts [] ⟨some (JsVal.str " "), some (JsVal.num 5),
        some (JsVal.str "x")⟩ sampleId 0).status = 201 ∧
    (postProducts [] ⟨some (JsVal.str " "), some (JsVal.num 5),
        some (JsVal.str "x")⟩ sampleId 0).store
      = [⟨sampleId, "", 5, "x", 0⟩] := by
  constructor
  · rfl
  · decide


/-- C2 amended: every text field supplied to a write operation is trimmed
before being persisted — stated for all five write operations
(`POST`/`PUT /api/products`, `POST`/`PUT`/`PATCH /api/items`, the update
clauses quantifying over arbitrary bodies); the items operations (POST,
PUT, PATCH) additionally reject any supplied text value that is empty
after trimming with 400 and perform no store write; the products
operations do NOT reject such values — they persist the empty string
(see the counterexample). -/
theorem write_ops_trim_and_items_reject_empty :
    (∀ (store : List ProductDoc) (nv pv cv : JsVal) (newId : OID)
       (now : Nat) (p : Rat), jsNumber pv = some p →
      (postProducts store ⟨some nv, some pv, some cv⟩ newId now).status = 201 →
      (postProducts store ⟨some nv, some pv, some cv⟩ newId now).store
        = store ++ [⟨newId, jsTrim (jsString nv), p, jsTrim (jsString cv), now⟩]) ∧
    (∀ (store : List ProductDoc) (i : String) (body : ProductBody),
      (putProduct store i body).status = 200 →
      (putProduct store i body).store
        = updateFirst (fun d => d._id = i)
            (fun d =>
              { d with
                name := (body.name.map
                  (fun v => jsTrim (jsString v))).getD d.name,
                category := (body.category.map
                  (fun v => jsTrim (jsString v))).getD d.category,
                price := ((body.price.bind jsNumber).getD d.price) })
            store) ∧
    (∀ (store : List ItemDoc) (nv dv : JsVal) (newId : OID) (now : Nat),
      (jsTrim (jsString nv) = "" ∨ jsTrim (jsString dv) = "") →
      (postItems store ⟨some nv, some dv⟩ newId now).status = 400 ∧
      (postItems store ⟨some nv, some dv⟩ newId now).store = store ∧
      (postItems store ⟨some nv, some dv⟩ newId now).accessed = false) ∧
    (∀ (store : List ItemDoc) (i : String) (nv dv : JsVal) (now : Nat),
      (jsTrim (jsString nv) = "" ∨ jsTrim (jsString dv) = "") →
      (putItem store i ⟨some nv, some dv⟩ now).status = 400 ∧
      (putItem store i ⟨some nv, some dv⟩ now).store = store) ∧
    (∀ (store : List ItemDoc) (i : String) (body : ItemBody) (now : Nat),
      ((∃ nv, body.name = some nv ∧ jsTrim (jsString nv) = "") ∨
       (∃ dv, body.description = some dv ∧ jsTrim (jsString dv) = "")) →
      (patchItem store i body now).status = 400 ∧
      (patchItem store i body now).store = store) ∧
    (∀ (store : List ItemDoc) (nv dv : JsVal) (newId : OID) (now : Nat),
      (postItems store ⟨some nv, some dv⟩ newId now).status = 201 →
      (postItems store ⟨some nv, some dv⟩ newId now).store
        = store ++ [⟨newId, jsTrim (jsString nv), jsTrim (jsString dv),
                     now, now⟩]) ∧
    (∀ (store : List ItemDoc) (i : String) (nv dv : JsVal) (now : Nat),
      (putItem store i ⟨some nv, some dv⟩ now).status = 200 →
      (putItem store i ⟨some nv, some dv⟩ now).store
        = updateFirst (fun x => x._id = i)
            (fun x =>
              { x with name := jsTrim (jsString nv),
                       description := jsTrim (jsString dv),
                       updatedAt := now }) store) ∧
    (∀ (store : List ItemDoc) (i : String) (body : ItemBody) (now : Nat),
      (patchItem store i body now).status = 200 →
      (patchItem store i body now).store
        = updateFirst (fun x => x._id = i)
            (fun x =>
              { x with
                name := (body.name.map
                  (fun v => jsTrim (jsString v))).getD x.name,
                description := (body.description.map
                  (fun v => jsTrim (jsString v))).getD x.description,
                updatedAt := now }) store) := by
  refine ⟨?_, ?_, ?_, ?_, ?_, ?_, ?_, ?_⟩
  · -- POST /api/products trims on success
    intro store nv pv cv newId now p hp h201
    cases h1 : (!jsTruthy nv || !jsTruthy cv)
    · simp [postProducts, h1, hp]
    · simp [postProducts, h1] at h201
  · -- PUT /api/products trims every supplied text field on success
    intro store i body h200
    rcases body with ⟨bn, bp, bc⟩
    cases hv : isValidObjectId i
    · simp [putProduct, hv] at h200
    · cases bp with
      | some pv =>
        cases hnum : jsNumber pv with
        | none => simp [putProduct, hv, hnum] at h200
        | some p =>
          cases hf : store.any (fun d => decide (d._id = i))
          · simp [putProduct, putProductApply, hv, hnum, hf] at h200
          · simp [putProduct, putProductApply, hv, hnum, hf]
      | none =>
        cases bn with
        | none =>
          cases bc with
          | none => simp [putProduct, putProductApply, hv] at h200
          | some cv =>
            cases hf : store.any (fun d => decide (d._id = i))
            · simp [putProduct, putProductApply, hv, hf] at h200
            · simp [putProduct, putProductApply, hv, hf]
        | some nv =>
          cases bc with
          | none =>
            cases hf : store.any (fun d => decide (d._id = i))
            · simp [putProduct, putProductApply, hv, hf] at h200
            · simp [putProduct, putProductApply, hv, hf]
          | some cv =>
            cases hf : store.any (fun d => decide (d._id = i))
            · simp [putProduct, putProductApply, hv, hf] at h200
            · simp [putProduct, putProductApply, hv, hf]
  · -- POST /api/items rejects empty-after-trim
    intro store nv dv newId now hor
    have hcond : (decide (jsTrim (jsString nv) = "")
        || decide (jsTrim (jsString dv) = "")) = true := by
      rcases hor with h | h <;> simp [h]
    cases h1 : (!jsTruthy nv || !jsTruthy dv)
    · simp [postItems, h1, hcond]
    · simp [postItems, h1]
  · -- PUT /api/items rejects empty-after-trim
    intro store i nv dv now hor
    have hcond : (decide (jsTrim (jsString nv) = "")
        || decide (jsTrim (jsString dv) = "")) = true := by
      rcases hor with h | h <;> simp [h]
    cases hv : isValidObjectId i
    · simp [putItem, hv]
    · cases h1 : (!jsTruthy nv || !jsTruthy dv)
      · simp [putItem, hv, h1, hcond]
      · simp [putItem, hv, h1]
  · -- PATCH /api/items rejects supplied empty-after-trim fields
    intro store i body now hor
    cases hv : isValidObjectId i
    · simp [patchItem, hv]
    · rcases hor with ⟨nv, hn, hnt⟩ | ⟨dv, hdd, hdt⟩
      · simp [patchItem, hv, hn, hnt]
      · cases hbn : body.name with
        | none => simp [patchItem, patchItemDesc, hv, hbn, hdd, hdt]
        | some nv2 =>
          by_cases h2 : jsTrim (jsString nv2) = ""
          · simp [patchItem, hv, hbn, h2]
          · simp [patchItem, patchItemDesc, hv, hbn, h2, hdd, hdt]
  · -- POST /api/items trims on success
    intro store nv dv newId now h201
    cases h1 : (!jsTruthy nv || !jsTruthy dv)
    · cases h2 : (decide (jsTrim (jsString nv) = "")
          || decide (jsTrim (jsString dv) = ""))
      · simp [postItems, h1, h2]
      · simp [postItems, h1, h2] at h201
    · simp [postItems, h1] at h201
  · -- PUT /api/items trims on success
    intro store i nv dv now h200
    cases hv : isValidObjectId i
    · simp [putItem, hv] at h200
    · cases h1 : (!jsTruthy nv || !jsTruthy dv)
      · cases h2 : (decide (jsTrim (jsString nv) = "")
            || decide (jsTrim (jsString dv) = ""))
        · cases hf : store.any (fun x => decide (x._id = i))
          · simp [putItem, hv, h1, h2, hf] at h200
          · simp [putItem, hv, h1, h2, hf]
        · simp [putItem, hv, h1, h2] at h200
      · simp [putItem, hv, h1] at h200
  · -- PATCH /api/items trims every supplied text field on success
    intro store i body now h200
    rcases body with ⟨bn, bd⟩
    cases hv : isValidObjectId i
    · simp [patchItem, hv] at h200
    · cases bn with
      | some nv =>
        by_cases hnt : jsTrim (jsString nv) = ""
        · simp [patchItem, hv, hnt] at h200
        · cases bd with
          | some dv =>
            by_cases hdt : jsTrim (jsString dv) = ""
            · simp [patchItem, patchItemDesc, hv, hnt, hdt] at h200
            · cases hf : store.any (fun x => decide (x._id = i))
              · simp [patchItem, patchItemDesc, patchItemApply, hv, hnt,
                  hdt, hf] at h200
              · simp [patchItem, patchItemDesc, patchItemApply, hv, hnt,
                  hdt, hf]
          | none =>
            cases hf : store.any (fun x => decide (x._id = i))
            · simp [patchItem, patchItemDesc, patchItemApply, hv, hnt,
                hf] at h200
            · simp [patchItem, patchItemDesc, patchItemApply, hv, hnt, hf]
      | none =>
        cases bd with
        | some dv =>
          by_cases hdt : jsTrim (jsString dv) = ""
          · simp [patchItem, patchItemDesc, hv, hdt] at h200
          · cases hf : store.any (fun x => decide (x._id = i))
            · simp [patchItem, patchItemDesc, patchItemApply, hv, hdt,
                hf] at h200
            · simp [patchItem, patchItemDesc, patchItemApply, hv, hdt, hf]
        | none =>
          simp [patchItem, patchItemDesc, patchItemApply, hv] at h200

/-- Witness for the amended C2: trimming on a products create, a products
update, an items update (PUT) and an items patch, and empty-after-trim
rejection on an items create and an items patch. -/
theorem write_ops_trim_and_items_reject_empty_witness :
    ((postProducts [] ⟨some (JsVal.str " x "), some (JsVal.num 2),
        some (JsVal.str " c ")⟩ sampleId 0).store
      = [] ++ [⟨sampleId, jsTrim (jsString (JsVal.str " x ")), 2,
                jsTrim (jsString (JsVal.str " c ")), 0⟩]) ∧
    ((putProduct [sampleProduct] sampleId
        ⟨some (JsVal.str " N "), some (JsVal.num 3),
         some (JsVal.str " C ")⟩).store
      = updateFirst (fun d => d._id = sampleId)
          (fun d =>
            { d with
              name := ((some (JsVal.str " N ")).map
                (fun v => jsTrim (jsString v))).getD d.name,
              category := ((some (JsVal.str " C ")).map
                (fun v => jsTrim (jsString v))).getD d.category,
              price := (((some (JsVal.num 3)).bind jsNumber).getD d.price) })
          [sampleProduct]) ∧
    ((postItems [] ⟨some (JsVal.str " "), some (JsVal.str "d")⟩
        sampleId 0).status = 400 ∧
     (postItems [] ⟨some (JsVal.str " "), some (JsVal.str "d")⟩
        sampleId 0).store = [] ∧
     (postItems [] ⟨some (JsVal.str " "), some (JsVal.str "d")⟩
        sampleId 0).accessed = false) ∧
    ((patchItem [sampleItem] sampleId ⟨none, some (JsVal.str "  ")⟩
        3).status = 400 ∧
     (patchItem [sampleItem] sampleId ⟨none, some (JsVal.str "  ")⟩
        3).store = [sampleItem]) ∧
    ((putItem [sampleItem] sampleId
        ⟨some (JsVal.str " a "), some (JsVal.str " b ")⟩ 9).store
      = updateFirst (fun x => x._id = sampleId)
          (fun x =>
            { x with name := jsTrim (jsString (JsVal.str " a ")),
                     description := jsTrim (jsString (JsVal.str " b ")),
                     updatedAt := 9 }) [sampleItem]) ∧
    ((patchItem [sampleItem] sampleId ⟨some (JsVal.str " n "), none⟩
        9).store
      = updateFirst (fun x => x._id = sampleId)
          (fun x =>
            { x with
              name := ((some (JsVal.str " n ")).map
                (fun v => jsTrim (jsString v))).getD x.name,
              description := ((none : Option JsVal).map
                (fun v => jsTrim (jsString v))).getD x.description,
              updatedAt := 9 }) [sampleItem]) :=
  ⟨write_ops_trim_and_items_reject_empty.1 [] (JsVal.str " x ")
      (JsVal.num 2) (JsVal.str " c ") sampleId 0 2 rfl rfl,
   write_ops_trim_and_items_reject_empty.2.1 [sampleProduct] sampleId
      ⟨some (JsVal.str " N "), some (JsVal.num 3),
       some (JsVal.str " C ")⟩ (by decide),
   write_ops_trim_and_items_reject_empty.2.2.1 [] (JsVal.str " ")
      (JsVal.str "d") sampleId 0 (Or.inl (by decide)),
   write_ops_trim_and_items_reject_empty.2.2.2.2.1 [sampleItem] sampleId
      ⟨none, some (JsVal.str "  ")⟩ 3
      (Or.inr ⟨JsVal.str "  ", rfl, by decide⟩),
   write_ops_trim_and_items_reject_empty.2.2.2.2.2.2.1 [sampleItem]
      sampleId (JsVal.str " a ") (JsVal.str " b ") 9 (by decide),
   write_ops_trim_and_items_reject_empty.2.2.2.2.2.2.2 [sampleItem]
      sampleId ⟨some (JsVal.str " n "), none⟩ 9 (by decide)⟩

/-- After `deleteOne` on an id that is unique in the collection, no
document with that id remains. -/
theorem mem_removeFirst_id_ne (l : List ItemDoc) (i : OID)
    (hnd : (l.map ItemDoc._id).Nodup) :
    ∀ x ∈ removeFirst (fun y => y._id = i) l, x._id ≠ i := by
  induction l with
  | nil => intro x hx; simp [removeFirst] at hx
  | cons a l ih =>
    intro x hx
    rw [List.map_cons, List.nodup_cons] at hnd
    by_cases ha : a._id = i
    · simp only [removeFirst] at hx
      rw [if_pos (by simp [ha])] at hx
      intro hxi
      exact hnd.1 (by rw [ha, ← hxi]; exact List.mem_map_of_mem _ hx)
    · simp only [removeFirst] at hx
      rw [if_neg (by simp [ha])] at hx
      rcases List.mem_cons.1 hx with rfl | hx2
      · exact ha
      · exact ih hnd.2 x hx2

/-- C8: deleting an existing item (ids unique in the store) returns 204
with an empty (non-JSON) body and removes the document; a second DELETE
with the same identifier returns 404 and changes nothing. -/
theorem delete_item_204_then_404
    (store : List ItemDoc) (d : ItemDoc) (hd : d ∈ store)
    (hnd : (store.map ItemDoc._id).Nodup)
    (hv : isValidObjectId d._id = true) :
    (deleteItem store d._id).status = 204 ∧
    (deleteItem store d._id).body = none ∧
    (∀ x ∈ (deleteItem store d._id).store, x._id ≠ d._id) ∧
    (deleteItem (deleteItem store d._id).store d._id).status = 404 ∧
    (deleteItem (deleteItem store d._id).store d._id).store
      = (deleteItem store d._id).store := by
  have hany : (store.any fun x => decide (x._id = d._id)) = true :=
    List.any_eq_true.2 ⟨d, hd, by simp⟩
  have h1 : deleteItem store d._id
      = ⟨204, none, removeFirst (fun x => decide (x._id = d._id)) store,
         true⟩ := by
    simp [deleteItem, hv, hany]
  have hrem := mem_removeFirst_id_ne store d._id hnd
  have hany2 : ((removeFirst (fun x => decide (x._id = d._id)) store).any
      fun x => decide (x._id = d._id)) = false := by
    rw [List.any_eq_false]
    intro x hx
    simp [hrem x hx]
  refine ⟨by rw [h1], by rw [h1], ?_, ?_, ?_⟩
  · rw [h1]; exact fun x hx => hrem x hx
  · rw [h1]; simp [deleteItem, hv, hany2]
  · rw [h1]; simp [deleteItem, hv, hany2]

/-- Witness for C8 on a one-item store. -/
theorem delete_item_204_then_404_witness :
    (deleteItem [sampleItem] sampleItem._id).status = 204 ∧
    (deleteItem [sampleItem] sampleItem._id).body = none ∧
    (∀ x ∈ (deleteItem [sampleItem] sampleItem._id).store,
       x._id ≠ sampleItem._id) ∧
    (deleteItem (deleteItem [sampleItem] sampleItem._id).store
       sampleItem._id).status = 404 ∧
    (deleteItem (deleteItem [sampleItem] sampleItem._id).store
       sampleItem._id).store
      = (deleteItem [sampleItem] sampleItem._id).store :=
  delete_item_204_then_404 [sampleItem] sampleItem (by simp)
    (by simp) (by decide)

/-- C7: `POST /api/items` with name and description non-empty after
trimming returns 201 carrying the generated id; a subsequent
`GET /api/items/:id` with that id returns the document with the same
trimmed name and description, and with `createdAt` equal to `updatedAt`.
The generated id is a fresh valid ObjectId, as the store guarantees. -/
theorem create_item_then_get_round_trip
    (store : List ItemDoc) (n d : String) (newId : OID) (now : Nat)
    (hn : jsTrim n ≠ "") (hd : jsTrim d ≠ "")
    (hv : isValidObjectId newId = true)
    (hfresh : ∀ x ∈ store, x._id ≠ newId) :
    (postItems store ⟨some (JsVal.str n), some (JsVal.str d)⟩
       newId now).status = 201 ∧
    idOf (postItems store ⟨some (JsVal.str n), some (JsVal.str d)⟩
       newId now).body = some newId ∧
    (postItems store ⟨some (JsVal.str n), some (JsVal.str d)⟩
       newId now).store = store ++ [⟨newId, jsTrim n, jsTrim d, now, now⟩] ∧
    getItemById (postItems store ⟨some (JsVal.str n), some (JsVal.str d)⟩
       newId now).store newId
      = ⟨200, some (ItemDoc.toJson ⟨newId, jsTrim n, jsTrim d, now, now⟩),
         (postItems store ⟨some (JsVal.str n), some (JsVal.str d)⟩
            newId now).store, true⟩ ∧
    jsonField (getItemById (postItems store
        ⟨some (JsVal.str n), some (JsVal.str d)⟩ newId now).store
        newId).body "name" = some (Json.str (jsTrim n)) ∧
    jsonField (getItemById (postItems store
        ⟨some (JsVal.str n), some (JsVal.str d)⟩ newId now).store
        newId).body "description" = some (Json.str (jsTrim d)) ∧
    jsonField (getItemById (postItems store
        ⟨some (JsVal.str n), some (JsVal.str d)⟩ newId now).store
        newId).body "createdAt"
      = jsonField (getItemById (postItems store
        ⟨some (JsVal.str n), some (JsVal.str d)⟩ newId now).store
        newId).body "updatedAt" := by
  have hn0 : n ≠ "" := fun h => hn (by rw [h]; decide)
  have hd0 : d ≠ "" := fun h => hd (by rw [h]; decide)
  have hpost : postItems store ⟨some (JsVal.str n), some (JsVal.str d)⟩
      newId now
      = ⟨201, some (Json.obj [("message", Json.str "Item created"),
                              ("id", Json.str newId)]),
         store ++ [⟨newId, jsTrim n, jsTrim d, now, now⟩], true⟩ := by
    simp [postItems, jsTruthy, jsString, hn0, hd0, hn, hd]
  have hfind : (store ++ [(⟨newId, jsTrim n, jsTrim d, now, now⟩ : ItemDoc)]).find?
      (fun x => decide (x._id = newId))
      = some (⟨newId, jsTrim n, jsTrim d, now, now⟩ : ItemDoc) := by
    rw [List.find?_append,
        List.find?_eq_none.2 (fun x hx => by simp [hfresh x hx])]
    simp [List.find?]
  have hget : getItemById
      (store ++ [⟨newId, jsTrim n, jsTrim d, now, now⟩]) newId
      = ⟨200, some (ItemDoc.toJson ⟨newId, jsTrim n, jsTrim d, now, now⟩),
         store ++ [⟨newId, jsTrim n, jsTrim d, now, now⟩], true⟩ := by
    simp [getItemById, hv, hfind]
  rw [hpost]
  dsimp only
  exact ⟨rfl, rfl, rfl, hget, by rw [hget]; rfl, by rw [hget]; rfl,
    by rw [hget]; rfl⟩

/-- Witness for C7: create `{name: "a", description: "b"}` in the empty
store under a fresh valid id, then fetch it. -/
theorem create_item_then_get_round_trip_witness :
    (postItems [] ⟨some (JsVal.str "a"), some (JsVal.str "b")⟩
       sampleId2 5).status = 201 ∧
    idOf (postItems [] ⟨some (JsVal.str "a"), some (JsVal.str "b")⟩
       sampleId2 5).body = some sampleId2 ∧
    (postItems [] ⟨some (JsVal.str "a"), some (JsVal.str "b")⟩
       sampleId2 5).store
      = [] ++ [⟨sampleId2, jsTrim "a", jsTrim "b", 5, 5⟩] ∧
    getItemById (postItems [] ⟨some (JsVal.str "a"), some (JsVal.str "b")⟩
       sampleId2 5).store sampleId2
      = ⟨200, some (ItemDoc.toJson ⟨sampleId2, jsTrim "a", jsTrim "b", 5, 5⟩),
         (postItems [] ⟨some (JsVal.str "a"), some (JsVal.str "b")⟩
            sampleId2 5).store, true⟩ ∧
    jsonField (getItemById (postItems []
        ⟨some (JsVal.str "a"), some (JsVal.str "b")⟩ sampleId2 5).store
        sampleId2).body "name" = some (Json.str (jsTrim "a")) ∧
    jsonField (getItemById (postItems []
        ⟨some (JsVal.str "a"), some (JsVal.str "b")⟩ sampleId2 5).store
        sampleId2).body "description" = some (Json.str (jsTrim "b")) ∧
    jsonField (getItemById (postItems []
        ⟨some (JsVal.str "a"), some (JsVal.str "b")⟩ sampleId2 5).store
        sampleId2).body "createdAt"
      = jsonField (getItemById (postItems []
        ⟨some (JsVal.str "a"), some (JsVal.str "b")⟩ sampleId2 5).store
        sampleId2).body "updatedAt" :=
  create_item_then_get_round_trip [] "a" "b" sampleId2 5
    (by decide) (by decide) (by decide) (by simp)

/-- The projection/sort/query steps of the products list route either
reject the `fields` parameter with 400 or answer with the standard
`{count, products}` 200 response. -/
theorem getProductsWithFilter_cases (store : List ProductDoc)
    (q : ProductsQuery) (cat : Option String) (minP : Option Rat) :
    getProductsWithFilter store q cat minP
      = ⟨400, some (errJson "fields must contain at least one field name"),
         store, false⟩ ∨
    (∃ docs, getProductsWithFilter store q cat minP
      = productsOkResp store docs) := by
  by_cases hf : strTruthy q.fields = true
  · by_cases he : (fieldListOf (q.fields.getD "")).isEmpty = true
    · left; simp [getProductsWithFilter, hf, he]
    · right
      refine ⟨(if q.sort = some "price"
            then sortByPrice (applyFilter store cat minP)
            else applyFilter store cat minP).map
          (projectDoc (fieldListOf (q.fields.getD ""))), ?_⟩
      simp [getProductsWithFilter, productsOkResp, hf, he]
  · right
    refine ⟨(if q.sort = some "price"
          then sortByPrice (applyFilter store cat minP)
          else applyFilter store cat minP).map ProductDoc.toJson, ?_⟩
    simp [getProductsWithFilter, productsOkResp, hf]

/-- `GET /api/products` either rejects a query parameter with 400 or
answers with the standard `{count, products}` 200 response. -/
theorem getProducts_cases (store : List ProductDoc) (q : ProductsQuery) :
    (∃ msg, getProducts store q = ⟨400, some (errJson msg), store, false⟩) ∨
    (∃ docs, getProducts store q = productsOkResp store docs) := by
  rcases hq : q.minPrice with _ | mp
  · rcases getProductsWithFilter_cases store q
        (if strTruthy q.category then q.category else none) none with
      h | ⟨docs, h⟩
    · left
      exact ⟨"fields must contain at least one field name",
        by simp [getProducts, hq, h]⟩
    · right; exact ⟨docs, by simp [getProducts, hq, h]⟩
  · rcases hnum : jsStrToNum mp with _ | m
    · left
      exact ⟨"minPrice must be a number", by simp [getProducts, hq, hnum]⟩
    · rcases getProductsWithFilter_cases store q
          (if strTruthy q.category then q.category else none) (some m) with
        h | ⟨docs, h⟩
      · left
        exact ⟨"fields must contain at least one field name",
          by simp [getProducts, hq, hnum, h]⟩
      · right; exact ⟨docs, by simp [getProducts, hq, hnum, h]⟩

/-- C10: on every successful list request, the `count` field equals the
length of the returned array, for products and for items. -/
theorem list_count_equals_array_length :
    (∀ (store : List ProductDoc) (q : ProductsQuery),
      (getProducts store q).status = 200 →
      ∃ l, productsOf (getProducts store q) = some l ∧
           countOf (getProducts store q).body = some ((l.length : Rat))) ∧
    (∀ store : List ItemDoc,
      ∃ l, itemsOf (getItems store) = some l ∧
           countOf (getItems store).body = some ((l.length : Rat))) := by
  constructor
  · intro store q h200
    rcases getProducts_cases store q with ⟨msg, h⟩ | ⟨docs, h⟩
    · rw [h] at h200; simp at h200
    · exact ⟨docs, by rw [h]; rfl, by rw [h]; rfl⟩
  · intro store
    exact ⟨store.map ItemDoc.toJson, rfl, rfl⟩

/-- Witness for C10 on a one-product store with an empty query. -/
theorem list_count_equals_array_length_witness :
    (∃ l, productsOf (getProducts [sampleProduct] ⟨none, none, none, none⟩)
        = some l ∧
      countOf (getProducts [sampleProduct]
        ⟨none, none, none, none⟩).body = some ((l.length : Rat))) ∧
    (∃ l, itemsOf (getItems [sampleItem]) = some l ∧
      countOf (getItems [sampleItem]).body = some ((l.length : Rat))) :=
  ⟨list_count_equals_array_length.1 [sampleProduct]
      ⟨none, none, none, none⟩ rfl,
   list_count_equals_array_length.2 [sampleItem]⟩

/-- With no category filter, the Mongo filter keeps exactly the documents
whose price meets the bound. -/
theorem applyFilter_none_some (store : List ProductDoc) (m : Rat) :
    applyFilter store none (some m)
      = store.filter (fun d => decide (m ≤ d.price)) := by
  unfold applyFilter
  exact List.filter_congr (fun d _ => by simp)

/-- With no filters at all, the Mongo find returns the whole collection. -/
theorem applyFilter_none_none (store : List ProductDoc) :
    applyFilter store none none = store := by
  unfold applyFilter
  simp

/-- C3: `GET /api/products?minPrice=50` returns exactly the products with
price ≥ 50 (in store order); adding `sort=price` returns a permutation of
that filtered set in non-decreasing price order; `sort=price` alone
returns a permutation of the whole collection in non-decreasing price
order. -/
theorem min_price_filter_and_price_sort (store : List ProductDoc) :
    (getProducts store ⟨none, some "50", none, none⟩
      = productsOkResp store
          ((store.filter (fun d => decide ((50 : Rat) ≤ d.price))).map
            ProductDoc.toJson)) ∧
    (∃ l, l.Perm (store.filter (fun d => decide ((50 : Rat) ≤ d.price))) ∧
       List.Sorted priceLE l ∧
       getProducts store ⟨none, some "50", some "price", none⟩
         = productsOkResp store (l.map ProductDoc.toJson)) ∧
    (∃ l, l.Perm store ∧ List.Sorted priceLE l ∧
       getProducts store ⟨none, none, some "price", none⟩
         = productsOkResp store (l.map ProductDoc.toJson)) := by
  have h50 : jsStrToNum "50" = some 50 := by decide
  have hf : applyFilter store none (some 50)
      = store.filter (fun d => decide ((50 : Rat) ≤ d.price)) :=
    applyFilter_none_some store 50
  refine ⟨?_, ?_, ?_⟩
  · simp [getProducts, getProductsWithFilter, h50, hf, productsOkResp,
      strTruthy]
  · refine ⟨sortByPrice (store.filter
        (fun d => decide ((50 : Rat) ≤ d.price))),
      List.perm_insertionSort priceLE _,
      List.sorted_insertionSort priceLE _, ?_⟩
    simp [getProducts, getProductsWithFilter, h50, hf, productsOkResp,
      strTruthy, sortByPrice]
  · refine ⟨sortByPrice store, List.perm_insertionSort priceLE store,
      List.sorted_insertionSort priceLE store, ?_⟩
    simp [getProducts, getProductsWithFilter, applyFilter_none_none,
      productsOkResp, strTruthy, sortByPrice]

/-- Counterexample for C4: `?fields=` (empty string) has a comma-separated
list that is empty after trimming, yet the route returns 200 with
unprojected documents (identifier and category included) instead of 400,
because the empty string is falsy and skips the projection block. -/
theorem fields_empty_string_not_rejected_cex :
    fieldListOf "" = [] ∧
    (getProducts [sampleProduct] ⟨none, none, none, some ""⟩).status = 200 ∧
    productsOf (getProducts [sampleProduct] ⟨none, none, none, some ""⟩)
      = some [ProductDoc.toJson sampleProduct] :=
  ⟨rfl, rfl, rfl⟩

/-- C4 amended: `?fields=name,price` returns, for every product, an object
with exactly the `name` and `price` fields (no identifier, no category); a
NON-empty `fields` parameter whose comma-separated list is empty after
trimming yields 400 without store access, but an empty-string `fields`
parameter is treated as absent (200, unprojected documents — see the
counterexample); the identifier appears in a projected document exactly
when `_id` is explicitly listed. -/
theorem fields_projection_amended :
    (∀ store : List ProductDoc,
      getProducts store ⟨none, none, none, some "name,price"⟩
        = productsOkResp store (store.map (fun d =>
            Json.obj [("name", Json.str d.name),
                      ("price", Json.num d.price)]))) ∧
    (∀ (store : List ProductDoc) (f : String),
      f ≠ "" → fieldListOf f = [] →
      getProducts store ⟨none, none, none, some f⟩
        = ⟨400, some (errJson "fields must contain at least one field name"),
           store, false⟩) ∧
    (∀ store : List ProductDoc,
      getProducts store ⟨none, none, none, some ""⟩
        = productsOkResp store (store.map ProductDoc.toJson)) ∧
    (∀ (fl : List String) (d : ProductDoc),
      (objKeys (projectDoc fl d)).contains "_id" = fl.contains "_id") := by
  refine ⟨?_, ?_, ?_, ?_⟩
  · intro store
    have hfl : fieldListOf "name,price" = ["name", "price"] := by decide
    have hproj : projectDoc ["name", "price"] = fun d : ProductDoc =>
        Json.obj [("name", Json.str d.name), ("price", Json.num d.price)] :=
      funext fun d => rfl
    simp [getProducts, getProductsWithFilter, strTruthy, productsOkResp,
      applyFilter_none_none, hfl, hproj]
  · intro store f hne hempty
    have hT : strTruthy (some f) = true := by simp [strTruthy, hne]
    simp [getProducts, getProductsWithFilter, hT, hempty]
  · intro store
    simp [getProducts, getProductsWithFilter, strTruthy, productsOkResp,
      applyFilter_none_none]
  · intro fl d
    by_cases h1 : "_id" ∈ fl <;>
    by_cases h2 : "name" ∈ fl <;>
    by_cases h3 : "price" ∈ fl <;>
    by_cases h4 : "category" ∈ fl <;>
    by_cases h5 : "createdAt" ∈ fl <;>
    simp [objKeys, projectDoc, ProductDoc.fieldPairs, List.filter,
      h1, h2, h3, h4, h5]

/-- Witness for the amended C4: `?fields=,` (only separators) is rejected
with 400 and no store access. -/
theorem fields_projection_amended_witness :
    getProducts [sampleProduct] ⟨none, none, none, some ","⟩
      = ⟨400, some (errJson "fields must contain at least one field name"),
         [sampleProduct], false⟩ :=
  fields_projection_amended.2.1 [sampleProduct] "," (by decide) (by decide)
